import Mathlib

/-!
# libuvc_cam: the UVC camera node

A shallow embedding of `src/libuvc_cam_node.cpp`: the node's constructor
(`UvcCameraNode::UvcCameraNode`) and its frame callback
(`UvcCameraNode::frame_callback`).

* Collaborator calls (camera driver, logging, image transport, process
  shutdown) are recorded, in program order, as a list of `Call` events.
* What a collaborator answers is an input of the model (`Driver`): whether
  the camera can be constructed, and what the support query returns. The
  constructor has no `try`: a failed construction of the camera ends the run.
* The three integer parameters are 64-bit values that lines 45-47 store in
  32-bit `int` variables (`static_cast_int`).
* The parameter values that the `declare_parameter` calls return are an input of
  the model (`Parameters`), with the defaults of those calls.
* Machine integers are `Int` / `Nat`; apart from that narrowing the node
  performs no arithmetic on them, they are compared with `0` and passed on.
-/

set_option autoImplicit false
set_option linter.dupNamespace false

namespace sensor_msgs

namespace image_encodings

/-- Modelled from the spec: the string constants of
`sensor_msgs/image_encodings.hpp`, a header that is not part of the sources;
the values are those of the table in section 4.3. -/
def YUV422_YUY2 : String := "yuv422_yuy2"

/-- Modelled from the spec: see `YUV422_YUY2`. -/
def YUV422 : String := "yuv422"

/-- Modelled from the spec: see `YUV422_YUY2`. -/
def RGB8 : String := "rgb8"

/-- Modelled from the spec: see `YUV422_YUY2`. -/
def BGR8 : String := "bgr8"

/-- Modelled from the spec: see `YUV422_YUY2`. -/
def MONO8 : String := "mono8"

/-- Modelled from the spec: see `YUV422_YUY2`. -/
def MONO16 : String := "mono16"

/-- Modelled from the spec: see `YUV422_YUY2`. -/
def BAYER_BGGR8 : String := "bayer_bggr8"

/-- Modelled from the spec: see `YUV422_YUY2`. -/
def BAYER_GRBG8 : String := "bayer_grbg8"

/-- Modelled from the spec: see `YUV422_YUY2`. -/
def BAYER_GBRG8 : String := "bayer_gbrg8"

/-- Modelled from the spec: see `YUV422_YUY2`. -/
def BAYER_RGGB8 : String := "bayer_rggb8"

end image_encodings

namespace msg

/-- The `std_msgs/Header` part the node writes: `frame_id`. A freshly
constructed header has an empty `frame_id`. -/
structure Header where
  frame_id : String := ""
  deriving DecidableEq, Repr

/-- Modelled from the spec: the outbound image record (`sensor_msgs::msg::Image`,
declared outside the sources): coordinate-frame label, height, width, step,
encoding and payload. A default-constructed record has zero dimensions, an
empty encoding and an empty payload. -/
structure Image where
  header : Header := {}
  height : Nat := 0
  width : Nat := 0
  encoding : String := ""
  step : Nat := 0
  data : List Nat := []
  deriving DecidableEq, Repr

end msg

end sensor_msgs

namespace libuvc_cam

/-- Modelled from the spec: the pixel-format enumeration of the camera driver
(declared in the driver's header, which is not part of the sources). Its values are the `case` labels
of the `switch` in `frame_callback` (lines 136-176), which C++ requires to be
pairwise distinct. -/
inductive UvcFrameFormat where
  | YUYV
  | UYVY
  | RGB
  | BGR
  | MJPEG
  | H264
  | GRAY8
  | GRAY16
  | BY8
  | BA81
  | SBGGR8
  | SGRBG8
  | SGBRG8
  | SRGGB8
  | NV12
  deriving DecidableEq, Repr, Fintype

/-- Modelled from the spec: the incoming frame (declared in the driver's
header): pixel format, width, height, row stride and payload bytes. Bytes are
natural numbers; the node never computes with them. -/
structure UvcFrame where
  frame_format : UvcFrameFormat
  width : Nat
  height : Nat
  step : Nat
  data : List Nat
  deriving DecidableEq, Repr

/-- The publisher handle `m_image_pub`: its topic and, in order, every image
handed to `publish`. -/
structure Publisher where
  topic : String
  published : List sensor_msgs.msg.Image
  deriving DecidableEq, Repr

/-- Member call `m_image_pub.publish(img)`: the record is appended to what the channel
has carried. -/
def Publisher.publish (p : Publisher) (img : sensor_msgs.msg.Image) : Publisher :=
  { p with published := p.published ++ [img] }

/-- The members of the node: the frame label `m_frame` and the publisher
`m_image_pub`. -/
structure UvcCameraNode where
  m_frame : String
  m_image_pub : Publisher
  deriving DecidableEq, Repr

/-- Library call `std::vector::resize(n)`: keep the first `n` elements, pad with
value-initialised (zero) elements up to length `n`. -/
def resize (v : List Nat) (n : Nat) : List Nat :=
  v.take n ++ List.replicate (n - v.length) 0

/-- The copy loop of `frame_callback` (lines 130-133):
`for (i = 0; i < frame->data.size(); i++) img.data[i] = frame->data[i];`
as a left fold over `i = 0, 1, ..., size - 1`. -/
def copy_loop (src : List Nat) (dst : List Nat) : List Nat :=
  (List.range src.length).foldl (fun d i => d.set i (src.getD i 0)) dst

/-- The `switch` of `frame_callback` (lines 135-179): the encoding is
assigned for ten of the formats and left as it is for the other four. -/
def set_encoding (img : sensor_msgs.msg.Image) (fmt : UvcFrameFormat) :
    sensor_msgs.msg.Image :=
  match fmt with
  | .YUYV => { img with encoding := sensor_msgs.image_encodings.YUV422_YUY2 }
  | .UYVY => { img with encoding := sensor_msgs.image_encodings.YUV422 }
  | .RGB => { img with encoding := sensor_msgs.image_encodings.RGB8 }
  | .BGR => { img with encoding := sensor_msgs.image_encodings.BGR8 }
  | .MJPEG => img
  | .H264 => img
  | .GRAY8 => { img with encoding := sensor_msgs.image_encodings.MONO8 }
  | .GRAY16 => { img with encoding := sensor_msgs.image_encodings.MONO16 }
  | .BY8 => img
  | .BA81 => { img with encoding := sensor_msgs.image_encodings.BAYER_BGGR8 }
  | .SBGGR8 => { img with encoding := sensor_msgs.image_encodings.BAYER_BGGR8 }
  | .SGRBG8 => { img with encoding := sensor_msgs.image_encodings.BAYER_GRBG8 }
  | .SGBRG8 => { img with encoding := sensor_msgs.image_encodings.BAYER_GBRG8 }
  | .SRGGB8 => { img with encoding := sensor_msgs.image_encodings.BAYER_RGGB8 }
  | .NV12 => img

/-- The image record that `frame_callback` builds (lines 122-179), statement
by statement. -/
def build_image (m_frame : String) (frame : UvcFrame) : sensor_msgs.msg.Image :=
  let img : sensor_msgs.msg.Image := {}
  let img := { img with header := { img.header with frame_id := m_frame } }
  let img := { img with height := frame.height }
  let img := { img with width := frame.width }
  let img := { img with step := frame.step }
  let img := { img with data := resize img.data frame.data.length }
  let img := { img with data := copy_loop frame.data img.data }
  set_encoding img frame.frame_format

/-- Method `UvcCameraNode::frame_callback`: build the record and publish it. -/
def UvcCameraNode.frame_callback (node : UvcCameraNode) (frame : UvcFrame) :
    UvcCameraNode :=
  { node with m_image_pub := node.m_image_pub.publish (build_image node.m_frame frame) }

/-! ## The constructor -/

/-- The stream formats of the driver that the constructor names. -/
inductive StreamFormat where
  | ANY
  | UNCOMPRESSED
  | MJPEG
  deriving DecidableEq, Repr

/-- The configured values of the eight parameters declared at lines 41-48.
A field's default is the default of its `declare_parameter` call, which is the
value of a parameter that the launch configuration does not override. An
integer parameter is a 64-bit signed value. -/
structure Parameters where
  vendor_id : String := "0x046d"
  product_id : String := "0x0825"
  serial_num : String := ""
  frame_fmt : String := "UNCOMPRESSED"
  image_width : Int := 0
  image_height : Int := 0
  frames_per_second : Int := 30
  frame_id : String := "camera"
  deriving DecidableEq, Repr

/-- What leaves the constructor as a C++ exception. -/
inductive Exception where
  /-- Thrown at lines 67-68, with its message. -/
  | InvalidParameterValueException (what : String)
  /-- Thrown by the construction of `UvcCamera` (line 71) and not caught. -/
  | device_open_failure
  deriving DecidableEq, Repr

/-- Modelled from the spec: the camera driver `UvcCamera`, whose implementation
is not part of the sources. Section 4.1 step 2: constructing it for (vendor_id,
product_id, serial_number) "may fail if no matching device is present or
accessible" and the failure propagates; section 6: `format_is_supported(fmt, w,
h, fps)` answers with a boolean. The other driver calls only happen. -/
structure Driver where
  opens : String → String → String → Bool
  format_is_supported : StreamFormat → Int → Int → Int → Bool

/-- The value of a 64-bit parameter once stored in a 32-bit `int`
(`int requested_width = declare_parameter("image_width", 0);`, lines 45-47):
the value modulo 2^32, taken in the range -2^31 .. 2^31 - 1. -/
def static_cast_int (x : Int) : Int :=
  (x + 2147483648) % 4294967296 - 2147483648

/-- The calls the constructor makes on its collaborators, with their
arguments. -/
inductive Call where
  | declare_parameter (name : String)
  | UvcCamera (vendor_id product_id serial_num : String)
  | register_frame_callback
  | RCLCPP_INFO (text : String)
  | RCLCPP_FATAL (text : String)
  | start_streaming
  | format_is_supported (fmt : StreamFormat) (width height frame_rate : Int)
  | start_streaming_with_format (fmt : StreamFormat) (width height frame_rate : Int)
  | print_supported_formats
  | shutdown
  | create_publisher (topic : String)
  deriving DecidableEq, Repr

/-- A run of the constructor: the collaborator calls in program order, and
either the constructed node or the exception that ended the run. -/
structure Construction where
  calls : List Call
  result : Except Exception UvcCameraNode

/-- The message of the exception of lines 67-68. -/
def invalid_frame_fmt : String :=
  "Invalid frame_fmt provided. Valid values are ANY, UNCOMPRESSED, or MJPEG"

/-- Lines 56-69: the value of `requested_fmt` for a `frame_fmt` string, or
the exception. `frame_fmt_string.empty()` is equality with the empty string;
`==` on `std::string` is exact, case-sensitive equality. -/
def requested_fmt (frame_fmt_string : String) : Except Exception StreamFormat :=
  if frame_fmt_string = "" ∨ frame_fmt_string = "ANY" then
    .ok StreamFormat.ANY
  else if frame_fmt_string = "UNCOMPRESSED" then
    .ok StreamFormat.UNCOMPRESSED
  else if frame_fmt_string = "MJPEG" then
    .ok StreamFormat.MJPEG
  else
    .error (Exception.InvalidParameterValueException invalid_frame_fmt)

/-- Lines 41-48: the eight parameter declarations, in order. -/
def declarations : List Call :=
  [ Call.declare_parameter "vendor_id",
    Call.declare_parameter "product_id",
    Call.declare_parameter "serial_num",
    Call.declare_parameter "frame_fmt",
    Call.declare_parameter "image_width",
    Call.declare_parameter "image_height",
    Call.declare_parameter "frames_per_second",
    Call.declare_parameter "frame_id" ]

/-- Lines 80-114: the choice between the first available stream and the
stream with the requested parameters. -/
def negotiate (driver : Driver) (fmt : StreamFormat)
    (requested_width requested_height requested_frame_rate : Int) : List Call :=
  if fmt = StreamFormat.ANY ∧ requested_width = 0 ∧ requested_height = 0 ∧
      requested_frame_rate = 0 then
    [ Call.RCLCPP_INFO "No frame parameters specified. Using first available stream type.",
      Call.start_streaming ]
  else
    [ Call.RCLCPP_INFO "Attempting to acquire stream with specified parameters.",
      Call.format_is_supported fmt requested_width requested_height requested_frame_rate ] ++
    if driver.format_is_supported fmt requested_width requested_height
        requested_frame_rate = true then
      [ Call.RCLCPP_INFO "Requested stream parameters available! Connecting...",
        Call.start_streaming_with_format fmt requested_width requested_height
          requested_frame_rate ]
    else
      [ Call.RCLCPP_FATAL
          "Requested stream is not supported. See output below for formats supported by this camera.\n",
        Call.print_supported_formats,
        Call.shutdown ]

/-- The constructor `UvcCameraNode::UvcCameraNode` (lines 38-118). -/
def UvcCameraNode.UvcCameraNode (parameters : Parameters) (driver : Driver) :
    Construction :=
  let vendor_id_param := parameters.vendor_id
  let product_id_param := parameters.product_id
  let serial_num := parameters.serial_num
  let frame_fmt_string := parameters.frame_fmt
  let requested_width := static_cast_int parameters.image_width
  let requested_height := static_cast_int parameters.image_height
  let requested_frame_rate := static_cast_int parameters.frames_per_second
  let m_frame := parameters.frame_id
  match requested_fmt frame_fmt_string with
  | .error e => { calls := declarations, result := .error e }
  | .ok fmt =>
    let m_camera := Call.UvcCamera vendor_id_param product_id_param serial_num
    if driver.opens vendor_id_param product_id_param serial_num = true then
      { calls :=
          declarations ++ [m_camera, Call.register_frame_callback] ++
            negotiate driver fmt requested_width requested_height requested_frame_rate ++
            [Call.create_publisher "image_raw"],
        result := .ok { m_frame := m_frame,
                        m_image_pub := { topic := "image_raw", published := [] } } }
    else
      { calls := declarations ++ [m_camera], result := .error Exception.device_open_failure }

/-! ## The frame callback: lemmas -/

/-- After `k` rounds of the copy loop the first `k` bytes are those of the
source and the others are untouched. -/
theorem copy_loop_invariant (src : List Nat) :
    ∀ (k : Nat) (dst : List Nat), k ≤ src.length → dst.length = src.length →
      (List.range k).foldl (fun d i => d.set i (src.getD i 0)) dst
        = src.take k ++ dst.drop k := by
  intro k
  induction k with
  | zero => intro dst _ _; simp
  | succ k ih =>
    intro dst hk hlen
    rw [List.range_succ, List.foldl_append, ih dst (by omega) hlen]
    simp only [List.foldl_cons, List.foldl_nil]
    have hk1 : k < src.length := by omega
    have hk2 : k < dst.length := by omega
    have hd : dst.drop k = dst[k] :: dst.drop (k + 1) := List.drop_eq_getElem_cons hk2
    have hs : src.take (k + 1) = src.take k ++ [src[k]] :=
      (List.take_concat_get' src k hk1).symm
    have hl : (src.take k).length = k := by simp; omega
    have hg : src.getD k 0 = src[k] := by simp [List.getD_eq_getElem?_getD, hk1]
    rw [hd, hs, hg, List.set_append, hl]
    simp only [Nat.lt_irrefl, if_false, Nat.sub_self, List.set_cons_zero, List.append_assoc,
      List.singleton_append]

/-- Resizing the empty payload and running the copy loop yields the source. -/
theorem copy_loop_resize (src : List Nat) :
    copy_loop src (resize [] src.length) = src := by
  unfold copy_loop
  rw [copy_loop_invariant src src.length _ (Nat.le_refl _) (by simp [resize])]
  simp [resize]

/-- The switch touches nothing but the encoding. -/
theorem set_encoding_other (img : sensor_msgs.msg.Image) (fmt : UvcFrameFormat) :
    (set_encoding img fmt).header = img.header ∧
    (set_encoding img fmt).height = img.height ∧
    (set_encoding img fmt).width = img.width ∧
    (set_encoding img fmt).step = img.step ∧
    (set_encoding img fmt).data = img.data := by
  cases fmt <;> simp [set_encoding]

/-- The record handed to `publish` is the one the callback built, appended to
what was published before; nothing else in the node changes. -/
theorem frame_callback_published (node : UvcCameraNode) (frame : UvcFrame) :
    (node.frame_callback frame).m_image_pub.published
      = node.m_image_pub.published ++ [build_image node.m_frame frame] := by
  simp [UvcCameraNode.frame_callback, Publisher.publish]

/-- The payload of the built record. -/
theorem build_image_data (m_frame : String) (frame : UvcFrame) :
    (build_image m_frame frame).data = frame.data := by
  unfold build_image
  simp only [(set_encoding_other _ _).2.2.2.2]
  exact copy_loop_resize frame.data

/-! ## The frame callback: properties -/

/-- C1 (count, as the code has it): the `switch` of `frame_callback` names 15
pairwise distinct pixel formats, not 14. -/
theorem C1_fifteen_formats :
    ([UvcFrameFormat.YUYV, UvcFrameFormat.UYVY, UvcFrameFormat.RGB, UvcFrameFormat.BGR,
      UvcFrameFormat.MJPEG, UvcFrameFormat.H264, UvcFrameFormat.GRAY8, UvcFrameFormat.GRAY16,
      UvcFrameFormat.BY8, UvcFrameFormat.BA81, UvcFrameFormat.SBGGR8, UvcFrameFormat.SGRBG8,
      UvcFrameFormat.SGBRG8, UvcFrameFormat.SRGGB8, UvcFrameFormat.NV12].Nodup) ∧
    Fintype.card UvcFrameFormat = 15 ∧
    ¬ (Fintype.card UvcFrameFormat = 14) := by
  refine ⟨by decide, by rfl, by decide⟩

/-- C1 (amended): for every one of the 15 pixel formats, `frame_callback`
publishes one record whose encoding is the one of the table of section 4.3,
whatever the node and whatever the frame's width, height, step and payload. -/
theorem C1_encoding_of_format (node : UvcCameraNode) (frame : UvcFrame) :
    Fintype.card UvcFrameFormat = 15 ∧
    ∃ img : sensor_msgs.msg.Image,
      (node.frame_callback frame).m_image_pub.published
        = node.m_image_pub.published ++ [img] ∧
      img.encoding =
        (match frame.frame_format with
          | UvcFrameFormat.YUYV => "yuv422_yuy2"
          | UvcFrameFormat.UYVY => "yuv422"
          | UvcFrameFormat.RGB => "rgb8"
          | UvcFrameFormat.BGR => "bgr8"
          | UvcFrameFormat.GRAY8 => "mono8"
          | UvcFrameFormat.GRAY16 => "mono16"
          | UvcFrameFormat.BA81 => "bayer_bggr8"
          | UvcFrameFormat.SBGGR8 => "bayer_bggr8"
          | UvcFrameFormat.SGRBG8 => "bayer_grbg8"
          | UvcFrameFormat.SGBRG8 => "bayer_gbrg8"
          | UvcFrameFormat.SRGGB8 => "bayer_rggb8"
          | UvcFrameFormat.MJPEG => ""
          | UvcFrameFormat.H264 => ""
          | UvcFrameFormat.BY8 => ""
          | UvcFrameFormat.NV12 => "") := by
  refine ⟨by rfl, build_image node.m_frame frame, frame_callback_published node frame, ?_⟩
  obtain ⟨fmt, w, h, s, d⟩ := frame
  cases fmt <;> rfl

/-- C2: the payload of the published record is the frame's payload: same
length, same byte at every index. -/
theorem C2_payload_copied (node : UvcCameraNode) (frame : UvcFrame) :
    ∃ img : sensor_msgs.msg.Image,
      (node.frame_callback frame).m_image_pub.published
        = node.m_image_pub.published ++ [img] ∧
      img.data = frame.data ∧
      img.data.length = frame.data.length ∧
      ∀ i : Nat, img.data.get? i = frame.data.get? i := by
  refine ⟨build_image node.m_frame frame, frame_callback_published node frame, ?_, ?_, ?_⟩
  · exact build_image_data _ _
  · rw [build_image_data]
  · intro i; rw [build_image_data]

/-- C3: the published record has the frame's height, width and step and the
node's `m_frame` as frame label, whatever the pixel format and payload. -/
theorem C3_geometry_and_label (node : UvcCameraNode) (frame : UvcFrame) :
    ∃ img : sensor_msgs.msg.Image,
      (node.frame_callback frame).m_image_pub.published
        = node.m_image_pub.published ++ [img] ∧
      img.height = frame.height ∧
      img.width = frame.width ∧
      img.step = frame.step ∧
      img.header.frame_id = node.m_frame := by
  refine ⟨build_image node.m_frame frame, frame_callback_published node frame, ?_⟩
  obtain ⟨fmt, w, h, s, d⟩ := frame
  cases fmt <;> exact ⟨rfl, rfl, rfl, rfl⟩

/-- C9: a frame in MJPEG, H264, BY8 or NV12 is published as exactly one
record with an empty encoding and the frame's bytes; and a frame of any format
adds exactly one record to what the channel has carried. -/
theorem C9_undecoded_formats_published (node : UvcCameraNode) (frame : UvcFrame)
    (h : frame.frame_format = UvcFrameFormat.MJPEG ∨
         frame.frame_format = UvcFrameFormat.H264 ∨
         frame.frame_format = UvcFrameFormat.BY8 ∨
         frame.frame_format = UvcFrameFormat.NV12) :
    (∃ img : sensor_msgs.msg.Image,
      (node.frame_callback frame).m_image_pub.published
        = node.m_image_pub.published ++ [img] ∧
      img.encoding = "" ∧
      img.data = frame.data) ∧
    ∀ other : UvcFrame,
      (node.frame_callback other).m_image_pub.published.length
        = node.m_image_pub.published.length + 1 := by
  refine ⟨⟨build_image node.m_frame frame, frame_callback_published node frame, ?_,
    build_image_data _ _⟩, ?_⟩
  · obtain ⟨fmt, w, hh, s, d⟩ := frame
    simp only at h
    rcases h with h | h | h | h <;> subst h <;> rfl
  · intro other
    rw [frame_callback_published]
    simp

/-- C9 at a two-byte MJPEG frame. -/
theorem C9_undecoded_formats_published_witness :
    (∃ img : sensor_msgs.msg.Image,
      (UvcCameraNode.frame_callback
          { m_frame := "camera", m_image_pub := { topic := "image_raw", published := [] } }
          { frame_format := UvcFrameFormat.MJPEG, width := 2, height := 1, step := 2,
            data := [255, 216] }).m_image_pub.published
        = [] ++ [img] ∧
      img.encoding = "" ∧
      img.data = [255, 216]) ∧
    ∀ other : UvcFrame,
      (UvcCameraNode.frame_callback
          { m_frame := "camera", m_image_pub := { topic := "image_raw", published := [] } }
          other).m_image_pub.published.length
        = ([] : List sensor_msgs.msg.Image).length + 1 :=
  C9_undecoded_formats_published
    { m_frame := "camera", m_image_pub := { topic := "image_raw", published := [] } }
    { frame_format := UvcFrameFormat.MJPEG, width := 2, height := 1, step := 2,
      data := [255, 216] }
    (Or.inl rfl)

/-! ## The constructor: lemmas -/

/-- The format resolution fails exactly on the strings outside the four
accepted ones, and then with the invalid-parameter exception. -/
theorem requested_fmt_error_iff (s : String) (e : Exception) :
    requested_fmt s = .error e ↔
      (e = Exception.InvalidParameterValueException invalid_frame_fmt ∧
        s ≠ "" ∧ s ≠ "ANY" ∧ s ≠ "UNCOMPRESSED" ∧ s ≠ "MJPEG") := by
  unfold requested_fmt
  by_cases h1 : s = "" ∨ s = "ANY"
  · rw [if_pos h1]
    constructor
    · intro h; cases h
    · rintro ⟨_, h2, h3, _⟩
      rcases h1 with h1 | h1
      · exact absurd h1 h2
      · exact absurd h1 h3
  · rw [if_neg h1]
    by_cases h2 : s = "UNCOMPRESSED"
    · rw [if_pos h2]
      constructor
      · intro h; cases h
      · rintro ⟨_, _, _, h3, _⟩; exact absurd h2 h3
    · rw [if_neg h2]
      by_cases h3 : s = "MJPEG"
      · rw [if_pos h3]
        constructor
        · intro h; cases h
        · rintro ⟨_, _, _, _, h4⟩; exact absurd h3 h4
      · rw [if_neg h3]
        constructor
        · intro h
          injection h with h
          exact ⟨h.symm, fun h => h1 (Or.inl h), fun h => h1 (Or.inr h), h2, h3⟩
        · rintro ⟨he, _⟩; rw [he]

/-- A run whose `frame_fmt` is rejected: the declarations, then the throw. -/
theorem constructor_invalid (p : Parameters) (driver : Driver) (e : Exception)
    (h : requested_fmt p.frame_fmt = .error e) :
    (UvcCameraNode.UvcCameraNode p driver).calls = declarations ∧
    (UvcCameraNode.UvcCameraNode p driver).result = .error e := by
  simp [UvcCameraNode.UvcCameraNode, h]

/-- A run whose camera cannot be constructed. -/
theorem constructor_not_open (p : Parameters) (driver : Driver) (fmt : StreamFormat)
    (h : requested_fmt p.frame_fmt = .ok fmt)
    (ho : driver.opens p.vendor_id p.product_id p.serial_num = false) :
    (UvcCameraNode.UvcCameraNode p driver).calls
      = declarations ++ [Call.UvcCamera p.vendor_id p.product_id p.serial_num] ∧
    (UvcCameraNode.UvcCameraNode p driver).result = .error Exception.device_open_failure := by
  simp [UvcCameraNode.UvcCameraNode, h, ho]

/-- A run that gets past the construction of the camera. -/
theorem constructor_open (p : Parameters) (driver : Driver) (fmt : StreamFormat)
    (h : requested_fmt p.frame_fmt = .ok fmt)
    (ho : driver.opens p.vendor_id p.product_id p.serial_num = true) :
    (UvcCameraNode.UvcCameraNode p driver).calls
      = declarations ++
          [Call.UvcCamera p.vendor_id p.product_id p.serial_num,
           Call.register_frame_callback] ++
          negotiate driver fmt (static_cast_int p.image_width)
            (static_cast_int p.image_height) (static_cast_int p.frames_per_second) ++
          [Call.create_publisher "image_raw"] ∧
    (UvcCameraNode.UvcCameraNode p driver).result
      = .ok { m_frame := p.frame_id,
              m_image_pub := { topic := "image_raw", published := [] } } := by
  simp [UvcCameraNode.UvcCameraNode, h, ho]

/-- Every run is one of the three above. -/
theorem constructor_cases (p : Parameters) (driver : Driver) :
    (∃ e, requested_fmt p.frame_fmt = .error e) ∨
    (∃ fmt, requested_fmt p.frame_fmt = .ok fmt ∧
      driver.opens p.vendor_id p.product_id p.serial_num = false) ∨
    (∃ fmt, requested_fmt p.frame_fmt = .ok fmt ∧
      driver.opens p.vendor_id p.product_id p.serial_num = true) := by
  cases h : requested_fmt p.frame_fmt with
  | error e => exact Or.inl ⟨e, rfl⟩
  | ok fmt =>
    cases ho : driver.opens p.vendor_id p.product_id p.serial_num with
    | false => exact Or.inr (Or.inl ⟨fmt, rfl, rfl⟩)
    | true => exact Or.inr (Or.inr ⟨fmt, rfl, rfl⟩)

/-- The first-available branch of the negotiation. -/
theorem negotiate_first_available (driver : Driver) (fmt : StreamFormat) (w h r : Int)
    (hc : fmt = StreamFormat.ANY ∧ w = 0 ∧ h = 0 ∧ r = 0) :
    negotiate driver fmt w h r =
      [ Call.RCLCPP_INFO "No frame parameters specified. Using first available stream type.",
        Call.start_streaming ] := by
  unfold negotiate
  rw [if_pos hc]

/-- The exact-match branch, stream supported. -/
theorem negotiate_supported (driver : Driver) (fmt : StreamFormat) (w h r : Int)
    (hc : ¬ (fmt = StreamFormat.ANY ∧ w = 0 ∧ h = 0 ∧ r = 0))
    (hs : driver.format_is_supported fmt w h r = true) :
    negotiate driver fmt w h r =
      [ Call.RCLCPP_INFO "Attempting to acquire stream with specified parameters.",
        Call.format_is_supported fmt w h r,
        Call.RCLCPP_INFO "Requested stream parameters available! Connecting...",
        Call.start_streaming_with_format fmt w h r ] := by
  unfold negotiate
  rw [if_neg hc, if_pos hs]
  rfl

/-- The exact-match branch, stream not supported. -/
theorem negotiate_unsupported (driver : Driver) (fmt : StreamFormat) (w h r : Int)
    (hc : ¬ (fmt = StreamFormat.ANY ∧ w = 0 ∧ h = 0 ∧ r = 0))
    (hs : driver.format_is_supported fmt w h r = false) :
    negotiate driver fmt w h r =
      [ Call.RCLCPP_INFO "Attempting to acquire stream with specified parameters.",
        Call.format_is_supported fmt w h r,
        Call.RCLCPP_FATAL
          "Requested stream is not supported. See output below for formats supported by this camera.\n",
        Call.print_supported_formats,
        Call.shutdown ] := by
  unfold negotiate
  rw [if_neg hc, if_neg (by simp [hs])]
  rfl

/-- A value in the range of a 32-bit `int` is stored unchanged. -/
theorem static_cast_int_of_range (x : Int)
    (h : -2147483648 ≤ x ∧ x < 2147483648) : static_cast_int x = x := by
  unfold static_cast_int
  omega

/-- A stored value is in the range of a 32-bit `int`. -/
theorem static_cast_int_range (x : Int) :
    -2147483648 ≤ static_cast_int x ∧ static_cast_int x < 2147483648 := by
  unfold static_cast_int
  omega

/-- A support query in the calls of a run pins the run down: the format was
accepted, the camera was constructed, the first-available condition failed and
the query carries the resolved format and the three integers as stored. -/
theorem query_in_calls (p : Parameters) (driver : Driver) (f : StreamFormat) (w h r : Int)
    (hq : Call.format_is_supported f w h r ∈ (UvcCameraNode.UvcCameraNode p driver).calls) :
    requested_fmt p.frame_fmt = .ok f ∧
    driver.opens p.vendor_id p.product_id p.serial_num = true ∧
    w = static_cast_int p.image_width ∧ h = static_cast_int p.image_height ∧
    r = static_cast_int p.frames_per_second ∧
    ¬ (f = StreamFormat.ANY ∧ w = 0 ∧ h = 0 ∧ r = 0) := by
  rcases constructor_cases p driver with ⟨e, he⟩ | ⟨fmt, hf, ho⟩ | ⟨fmt, hf, ho⟩
  · rw [(constructor_invalid p driver e he).1] at hq
    simp [declarations] at hq
  · rw [(constructor_not_open p driver fmt hf ho).1] at hq
    simp [declarations] at hq
  · rw [(constructor_open p driver fmt hf ho).1] at hq
    by_cases hc : fmt = StreamFormat.ANY ∧ static_cast_int p.image_width = 0 ∧
        static_cast_int p.image_height = 0 ∧ static_cast_int p.frames_per_second = 0
    · rw [negotiate_first_available driver fmt _ _ _ hc] at hq
      simp [declarations] at hq
    · cases hs : driver.format_is_supported fmt (static_cast_int p.image_width)
          (static_cast_int p.image_height) (static_cast_int p.frames_per_second) with
      | true =>
        rw [negotiate_supported driver fmt _ _ _ hc hs] at hq
        simp [declarations] at hq
        obtain ⟨rfl, rfl, rfl, rfl⟩ := hq
        exact ⟨hf, ho, rfl, rfl, rfl, hc⟩
      | false =>
        rw [negotiate_unsupported driver fmt _ _ _ hc hs] at hq
        simp [declarations] at hq
        obtain ⟨rfl, rfl, rfl, rfl⟩ := hq
        exact ⟨hf, ho, rfl, rfl, rfl, hc⟩

/-! ## The constructor: properties -/

/-- C4: the format resolution yields ANY for "" and "ANY", UNCOMPRESSED for
"UNCOMPRESSED", MJPEG for "MJPEG"; it raises the invalid-parameter exception
exactly when the string is none of the four, and so does the constructor; the
comparison is case-exact ("mjpeg" is rejected). -/
theorem C4_frame_fmt_resolution :
    requested_fmt "" = .ok StreamFormat.ANY ∧
    requested_fmt "ANY" = .ok StreamFormat.ANY ∧
    requested_fmt "UNCOMPRESSED" = .ok StreamFormat.UNCOMPRESSED ∧
    requested_fmt "MJPEG" = .ok StreamFormat.MJPEG ∧
    (∀ s : String,
      requested_fmt s = .error (Exception.InvalidParameterValueException invalid_frame_fmt) ↔
        (s ≠ "" ∧ s ≠ "ANY" ∧ s ≠ "UNCOMPRESSED" ∧ s ≠ "MJPEG")) ∧
    (∀ (p : Parameters) (driver : Driver),
      (UvcCameraNode.UvcCameraNode p driver).result
          = .error (Exception.InvalidParameterValueException invalid_frame_fmt) ↔
        (p.frame_fmt ≠ "" ∧ p.frame_fmt ≠ "ANY" ∧ p.frame_fmt ≠ "UNCOMPRESSED" ∧
          p.frame_fmt ≠ "MJPEG")) ∧
    requested_fmt "mjpeg" = .error (Exception.InvalidParameterValueException invalid_frame_fmt) := by
  refine ⟨rfl, rfl, rfl, rfl, ?_, ?_, rfl⟩
  · intro s
    rw [requested_fmt_error_iff]
    simp
  · intro p driver
    rcases constructor_cases p driver with ⟨e, he⟩ | ⟨fmt, hf, ho⟩ | ⟨fmt, hf, ho⟩
    · rw [(constructor_invalid p driver e he).2]
      have h := (requested_fmt_error_iff p.frame_fmt e).1 he
      constructor
      · intro _; exact h.2
      · intro _; rw [h.1]
    · rw [(constructor_not_open p driver fmt hf ho).2]
      constructor
      · intro h; injection h with h; cases h
      · intro h
        have h2 := (requested_fmt_error_iff p.frame_fmt
          (Exception.InvalidParameterValueException invalid_frame_fmt)).2 ⟨rfl, h⟩
        rw [hf] at h2; cases h2
    · rw [(constructor_open p driver fmt hf ho).2]
      constructor
      · intro h; cases h
      · intro h
        have h2 := (requested_fmt_error_iff p.frame_fmt
          (Exception.InvalidParameterValueException invalid_frame_fmt)).2 ⟨rfl, h⟩
        rw [hf] at h2; cases h2

/-- C5 (as stated, refuted), at two inputs. With frame_fmt "ANY", height 0,
frame rate 0 and image_width 2^32 on a driver that opens the camera, the
configured width is not 0, yet the width stored in the 32-bit `int` is 0 and
the constructor calls `start_streaming()` without a support query. With
frame_fmt "ANY" and 0, 0, 0 on a driver whose camera construction fails, the
run ends at the construction of the camera and `start_streaming()` is not
called. -/
theorem C5_narrowed_width_and_absent_camera :
    (requested_fmt "ANY" = .ok StreamFormat.ANY ∧
      (4294967296 : Int) ≠ 0 ∧
      (UvcCameraNode.UvcCameraNode
          { frame_fmt := "ANY", image_width := 4294967296, frames_per_second := 0 }
          { opens := fun _ _ _ => true, format_is_supported := fun _ _ _ _ => true }).calls
        = declarations ++
            [ Call.UvcCamera "0x046d" "0x0825" "",
              Call.register_frame_callback,
              Call.RCLCPP_INFO
                "No frame parameters specified. Using first available stream type.",
              Call.start_streaming,
              Call.create_publisher "image_raw" ] ∧
      Call.format_is_supported StreamFormat.ANY 4294967296 0 0 ∉
        (UvcCameraNode.UvcCameraNode
          { frame_fmt := "ANY", image_width := 4294967296, frames_per_second := 0 }
          { opens := fun _ _ _ => true, format_is_supported := fun _ _ _ _ => true }).calls) ∧
    (({ frame_fmt := "ANY", frames_per_second := 0 } : Parameters).image_width = 0 ∧
      ({ frame_fmt := "ANY", frames_per_second := 0 } : Parameters).image_height = 0 ∧
      ({ frame_fmt := "ANY", frames_per_second := 0 } : Parameters).frames_per_second = 0 ∧
      (UvcCameraNode.UvcCameraNode { frame_fmt := "ANY", frames_per_second := 0 }
          { opens := fun _ _ _ => false, format_is_supported := fun _ _ _ _ => true }).calls
        = declarations ++ [Call.UvcCamera "0x046d" "0x0825" ""] ∧
      Call.start_streaming ∉
        (UvcCameraNode.UvcCameraNode { frame_fmt := "ANY", frames_per_second := 0 }
          { opens := fun _ _ _ => false, format_is_supported := fun _ _ _ _ => true }).calls ∧
      (UvcCameraNode.UvcCameraNode { frame_fmt := "ANY", frames_per_second := 0 }
          { opens := fun _ _ _ => false, format_is_supported := fun _ _ _ _ => true }).result
        = .error Exception.device_open_failure) := by
  refine ⟨⟨rfl, by decide, by decide, by decide⟩, rfl, rfl, rfl, by decide, by decide, rfl⟩

/-- C5 (amended): for every accepted `frame_fmt` and every driver whose
camera construction succeeds, the constructor calls `start_streaming()` and
makes no support query if and only if the resolved format is ANY and width,
height and frame rate, as stored in the 32-bit `int` variables, are all 0;
otherwise it makes the support query with the resolved format and the three
stored integers and never calls the parameterless `start_streaming()`. When
the three configured values lie in the range of `int`, the stored values are
the configured ones. -/
theorem C5_first_available_branch (p : Parameters) (driver : Driver) (fmt : StreamFormat)
    (hfmt : requested_fmt p.frame_fmt = .ok fmt)
    (hopen : driver.opens p.vendor_id p.product_id p.serial_num = true) :
    ((Call.start_streaming ∈ (UvcCameraNode.UvcCameraNode p driver).calls ∧
        ∀ (f : StreamFormat) (w h r : Int),
          Call.format_is_supported f w h r ∉ (UvcCameraNode.UvcCameraNode p driver).calls) ↔
      (fmt = StreamFormat.ANY ∧ static_cast_int p.image_width = 0 ∧
        static_cast_int p.image_height = 0 ∧ static_cast_int p.frames_per_second = 0)) ∧
    (¬ (fmt = StreamFormat.ANY ∧ static_cast_int p.image_width = 0 ∧
          static_cast_int p.image_height = 0 ∧ static_cast_int p.frames_per_second = 0) →
      Call.format_is_supported fmt (static_cast_int p.image_width)
          (static_cast_int p.image_height) (static_cast_int p.frames_per_second)
          ∈ (UvcCameraNode.UvcCameraNode p driver).calls ∧
      Call.start_streaming ∉ (UvcCameraNode.UvcCameraNode p driver).calls) ∧
    ((-2147483648 ≤ p.image_width ∧ p.image_width < 2147483648) →
      (-2147483648 ≤ p.image_height ∧ p.image_height < 2147483648) →
      (-2147483648 ≤ p.frames_per_second ∧ p.frames_per_second < 2147483648) →
      (((Call.start_streaming ∈ (UvcCameraNode.UvcCameraNode p driver).calls ∧
          ∀ (f : StreamFormat) (w h r : Int),
            Call.format_is_supported f w h r
              ∉ (UvcCameraNode.UvcCameraNode p driver).calls) ↔
        (fmt = StreamFormat.ANY ∧ p.image_width = 0 ∧ p.image_height = 0 ∧
          p.frames_per_second = 0)) ∧
       (¬ (fmt = StreamFormat.ANY ∧ p.image_width = 0 ∧ p.image_height = 0 ∧
            p.frames_per_second = 0) →
        Call.format_is_supported fmt p.image_width p.image_height p.frames_per_second
            ∈ (UvcCameraNode.UvcCameraNode p driver).calls ∧
        Call.start_streaming ∉ (UvcCameraNode.UvcCameraNode p driver).calls))) := by
  have hcalls := (constructor_open p driver fmt hfmt hopen).1
  have hexact : ¬ (fmt = StreamFormat.ANY ∧ static_cast_int p.image_width = 0 ∧
        static_cast_int p.image_height = 0 ∧ static_cast_int p.frames_per_second = 0) →
      Call.format_is_supported fmt (static_cast_int p.image_width)
          (static_cast_int p.image_height) (static_cast_int p.frames_per_second)
          ∈ (UvcCameraNode.UvcCameraNode p driver).calls ∧
      Call.start_streaming ∉ (UvcCameraNode.UvcCameraNode p driver).calls := by
    intro hc
    rw [hcalls]
    cases hs : driver.format_is_supported fmt (static_cast_int p.image_width)
        (static_cast_int p.image_height) (static_cast_int p.frames_per_second) with
    | true =>
      rw [negotiate_supported driver fmt _ _ _ hc hs]
      simp [declarations]
    | false =>
      rw [negotiate_unsupported driver fmt _ _ _ hc hs]
      simp [declarations]
  have hiff : (Call.start_streaming ∈ (UvcCameraNode.UvcCameraNode p driver).calls ∧
        ∀ (f : StreamFormat) (w h r : Int),
          Call.format_is_supported f w h r ∉ (UvcCameraNode.UvcCameraNode p driver).calls) ↔
      (fmt = StreamFormat.ANY ∧ static_cast_int p.image_width = 0 ∧
        static_cast_int p.image_height = 0 ∧ static_cast_int p.frames_per_second = 0) := by
    constructor
    · rintro ⟨_, hnone⟩
      by_contra hc
      exact hnone _ _ _ _ (hexact hc).1
    · intro hc
      constructor
      · rw [hcalls, negotiate_first_available driver fmt _ _ _ hc]
        simp
      · intro f w h r hq
        obtain ⟨hf, _, rfl, rfl, rfl, hne⟩ := query_in_calls p driver f w h r hq
        rw [hfmt] at hf
        injection hf with hf
        subst hf
        exact hne hc
  refine ⟨hiff, hexact, ?_⟩
  intro hw hh hr
  have ew := static_cast_int_of_range p.image_width hw
  have eh := static_cast_int_of_range p.image_height hh
  have er := static_cast_int_of_range p.frames_per_second hr
  rw [ew, eh, er] at hiff hexact
  exact ⟨hiff, hexact⟩

/-- C5 at frame_fmt "ANY", width 0, height 0, frame rate 15, on a driver that
opens the camera and supports everything: the support query is made. -/
theorem C5_first_available_branch_witness :
    requested_fmt ({ frame_fmt := "ANY", frames_per_second := 15 } : Parameters).frame_fmt
      = .ok StreamFormat.ANY ∧
    Call.format_is_supported StreamFormat.ANY 0 0 15 ∈
      (UvcCameraNode.UvcCameraNode { frame_fmt := "ANY", frames_per_second := 15 }
        { opens := fun _ _ _ => true, format_is_supported := fun _ _ _ _ => true }).calls ∧
    Call.start_streaming ∉
      (UvcCameraNode.UvcCameraNode { frame_fmt := "ANY", frames_per_second := 15 }
        { opens := fun _ _ _ => true, format_is_supported := fun _ _ _ _ => true }).calls :=
  ⟨rfl,
   ((C5_first_available_branch { frame_fmt := "ANY", frames_per_second := 15 }
      { opens := fun _ _ _ => true, format_is_supported := fun _ _ _ _ => true }
      StreamFormat.ANY rfl rfl).2.2 (by decide) (by decide) (by decide)).2 (by decide)⟩

/-- C6: in a run that makes the support query and gets the answer `false`,
neither `start_streaming()` nor `start_streaming_with_format(...)` is called,
and `print_supported_formats()` is called, immediately followed by the shutdown
request. -/
theorem C6_unsupported_stream (p : Parameters) (driver : Driver)
    (f : StreamFormat) (w h r : Int)
    (hquery : Call.format_is_supported f w h r ∈ (UvcCameraNode.UvcCameraNode p driver).calls)
    (hno : driver.format_is_supported f w h r = false) :
    Call.start_streaming ∉ (UvcCameraNode.UvcCameraNode p driver).calls ∧
    (∀ (f' : StreamFormat) (w' h' r' : Int),
      Call.start_streaming_with_format f' w' h' r'
        ∉ (UvcCameraNode.UvcCameraNode p driver).calls) ∧
    ∃ before after : List Call,
      (UvcCameraNode.UvcCameraNode p driver).calls
        = before ++ [Call.print_supported_formats, Call.shutdown] ++ after ∧
      Call.shutdown ∉ before := by
  obtain ⟨hf, ho, rfl, rfl, rfl, hc⟩ := query_in_calls p driver f w h r hquery
  rw [(constructor_open p driver f hf ho).1, negotiate_unsupported driver f _ _ _ hc hno]
  refine ⟨by simp [declarations], by simp [declarations], ?_⟩
  refine ⟨declarations ++
      [ Call.UvcCamera p.vendor_id p.product_id p.serial_num,
        Call.register_frame_callback,
        Call.RCLCPP_INFO "Attempting to acquire stream with specified parameters.",
        Call.format_is_supported f (static_cast_int p.image_width)
          (static_cast_int p.image_height) (static_cast_int p.frames_per_second),
        Call.RCLCPP_FATAL
          "Requested stream is not supported. See output below for formats supported by this camera.\n" ],
    [Call.create_publisher "image_raw"], ?_, ?_⟩
  · simp
  · simp [declarations]

/-- C6 at frame_fmt "MJPEG", 640 x 480 at 30 frames per second, on a driver
that opens the camera and supports nothing. -/
theorem C6_unsupported_stream_witness :
    Call.format_is_supported StreamFormat.MJPEG 640 480 30 ∈
      (UvcCameraNode.UvcCameraNode
        { frame_fmt := "MJPEG", image_width := 640, image_height := 480,
          frames_per_second := 30 }
        { opens := fun _ _ _ => true, format_is_supported := fun _ _ _ _ => false }).calls ∧
    Call.start_streaming ∉
      (UvcCameraNode.UvcCameraNode
        { frame_fmt := "MJPEG", image_width := 640, image_height := 480,
          frames_per_second := 30 }
        { opens := fun _ _ _ => true, format_is_supported := fun _ _ _ _ => false }).calls ∧
    (∀ (f' : StreamFormat) (w' h' r' : Int),
      Call.start_streaming_with_format f' w' h' r' ∉
        (UvcCameraNode.UvcCameraNode
          { frame_fmt := "MJPEG", image_width := 640, image_height := 480,
            frames_per_second := 30 }
          { opens := fun _ _ _ => true, format_is_supported := fun _ _ _ _ => false }).calls) ∧
    ∃ before after : List Call,
      (UvcCameraNode.UvcCameraNode
          { frame_fmt := "MJPEG", image_width := 640, image_height := 480,
            frames_per_second := 30 }
          { opens := fun _ _ _ => true, format_is_supported := fun _ _ _ _ => false }).calls
        = before ++ [Call.print_supported_formats, Call.shutdown] ++ after ∧
      Call.shutdown ∉ before :=
  ⟨by decide,
   C6_unsupported_stream
     { frame_fmt := "MJPEG", image_width := 640, image_height := 480, frames_per_second := 30 }
     { opens := fun _ _ _ => true, format_is_supported := fun _ _ _ _ => false }
     StreamFormat.MJPEG 640 480 30 (by decide) rfl⟩

/-- C7 (as stated, refuted): with the default frame_fmt, width 0, height 0
and frames_per_second 2^31, on a driver that opens the camera and supports
everything, the frame rate stored in the 32-bit `int` is -2^31: the query and
the streaming start carry -2^31 and no streaming start carries the configured
2^31. -/
theorem C7_narrowed_frame_rate :
    (UvcCameraNode.UvcCameraNode { frames_per_second := 2147483648 }
        { opens := fun _ _ _ => true, format_is_supported := fun _ _ _ _ => true }).calls
      = declarations ++
          [ Call.UvcCamera "0x046d" "0x0825" "",
            Call.register_frame_callback,
            Call.RCLCPP_INFO "Attempting to acquire stream with specified parameters.",
            Call.format_is_supported StreamFormat.UNCOMPRESSED 0 0 (-2147483648),
            Call.RCLCPP_INFO "Requested stream parameters available! Connecting...",
            Call.start_streaming_with_format StreamFormat.UNCOMPRESSED 0 0 (-2147483648),
            Call.create_publisher "image_raw" ] ∧
    Call.start_streaming_with_format StreamFormat.UNCOMPRESSED 0 0 2147483648 ∉
      (UvcCameraNode.UvcCameraNode { frames_per_second := 2147483648 }
        { opens := fun _ _ _ => true, format_is_supported := fun _ _ _ _ => true }).calls ∧
    ({ frames_per_second := 2147483648 } : Parameters).frames_per_second
      ≠ (-2147483648 : Int) := by
  refine ⟨by decide, by decide, by decide⟩

/-- C7 (amended): in a run that makes the support query `(f, w, h, r)` and
gets the answer `true`, the query's arguments are the resolved format and the
configured width, height and frame rate as stored in the 32-bit `int`
variables (the configured values themselves when they lie in the range of
`int`), `start_streaming_with_format` is called exactly once, with those same
four arguments and after the query, and no shutdown is requested. -/
theorem C7_supported_stream (p : Parameters) (driver : Driver)
    (f : StreamFormat) (w h r : Int)
    (hquery : Call.format_is_supported f w h r ∈ (UvcCameraNode.UvcCameraNode p driver).calls)
    (hyes : driver.format_is_supported f w h r = true) :
    requested_fmt p.frame_fmt = .ok f ∧
    w = static_cast_int p.image_width ∧
    h = static_cast_int p.image_height ∧
    r = static_cast_int p.frames_per_second ∧
    ((-2147483648 ≤ p.image_width ∧ p.image_width < 2147483648) → w = p.image_width) ∧
    ((-2147483648 ≤ p.image_height ∧ p.image_height < 2147483648) → h = p.image_height) ∧
    ((-2147483648 ≤ p.frames_per_second ∧ p.frames_per_second < 2147483648) →
      r = p.frames_per_second) ∧
    (UvcCameraNode.UvcCameraNode p driver).calls.count
        (Call.start_streaming_with_format f w h r) = 1 ∧
    (∀ (f' : StreamFormat) (w' h' r' : Int),
      Call.start_streaming_with_format f' w' h' r'
          ∈ (UvcCameraNode.UvcCameraNode p driver).calls →
        f' = f ∧ w' = w ∧ h' = h ∧ r' = r) ∧
    (∃ before between after : List Call,
      (UvcCameraNode.UvcCameraNode p driver).calls
        = before ++ [Call.format_is_supported f w h r] ++ between ++
            [Call.start_streaming_with_format f w h r] ++ after) ∧
    Call.start_streaming ∉ (UvcCameraNode.UvcCameraNode p driver).calls ∧
    Call.shutdown ∉ (UvcCameraNode.UvcCameraNode p driver).calls := by
  obtain ⟨hf, ho, rfl, rfl, rfl, hc⟩ := query_in_calls p driver f w h r hquery
  rw [(constructor_open p driver f hf ho).1, negotiate_supported driver f _ _ _ hc hyes]
  refine ⟨hf, rfl, rfl, rfl, static_cast_int_of_range _, static_cast_int_of_range _,
    static_cast_int_of_range _, by simp [declarations], by simp [declarations], ?_,
    by simp [declarations], by simp [declarations]⟩
  exact ⟨declarations ++
      [ Call.UvcCamera p.vendor_id p.product_id p.serial_num,
        Call.register_frame_callback,
        Call.RCLCPP_INFO "Attempting to acquire stream with specified parameters." ],
    [Call.RCLCPP_INFO "Requested stream parameters available! Connecting..."],
    [Call.create_publisher "image_raw"], by simp⟩

/-- C7 at the default parameters (frame_fmt "UNCOMPRESSED", width 0, height
0, 30 frames per second), on a driver that opens the camera and supports
everything. -/
theorem C7_supported_stream_witness :
    Call.format_is_supported StreamFormat.UNCOMPRESSED 0 0 30 ∈
      (UvcCameraNode.UvcCameraNode {}
        { opens := fun _ _ _ => true, format_is_supported := fun _ _ _ _ => true }).calls ∧
    (30 : Int) = ({} : Parameters).frames_per_second ∧
    (UvcCameraNode.UvcCameraNode {}
        { opens := fun _ _ _ => true, format_is_supported := fun _ _ _ _ => true }).calls.count
      (Call.start_streaming_with_format StreamFormat.UNCOMPRESSED 0 0 30) = 1 ∧
    Call.shutdown ∉
      (UvcCameraNode.UvcCameraNode {}
        { opens := fun _ _ _ => true, format_is_supported := fun _ _ _ _ => true }).calls :=
  have h := C7_supported_stream {}
    { opens := fun _ _ _ => true, format_is_supported := fun _ _ _ _ => true }
    StreamFormat.UNCOMPRESSED 0 0 30 (by decide) rfl
  ⟨by decide, h.2.2.2.2.2.2.1 (by decide), h.2.2.2.2.2.2.2.1, h.2.2.2.2.2.2.2.2.2.2.2⟩

/-- C8: when `frame_fmt` is none of "", "ANY", "UNCOMPRESSED", "MJPEG", the
run ends with the invalid-parameter exception after the eight parameter
declarations and nothing else: no camera is constructed, no callback is
registered, no support query and no streaming start is issued, no publisher is
created. -/
theorem C8_invalid_frame_fmt_fails_first (p : Parameters) (driver : Driver)
    (h : p.frame_fmt ≠ "" ∧ p.frame_fmt ≠ "ANY" ∧ p.frame_fmt ≠ "UNCOMPRESSED" ∧
      p.frame_fmt ≠ "MJPEG") :
    (UvcCameraNode.UvcCameraNode p driver).result
      = .error (Exception.InvalidParameterValueException invalid_frame_fmt) ∧
    (UvcCameraNode.UvcCameraNode p driver).calls = declarations ∧
    (∀ v q s : String,
      Call.UvcCamera v q s ∉ (UvcCameraNode.UvcCameraNode p driver).calls) ∧
    Call.register_frame_callback ∉ (UvcCameraNode.UvcCameraNode p driver).calls ∧
    (∀ (f : StreamFormat) (w h r : Int),
      Call.format_is_supported f w h r ∉ (UvcCameraNode.UvcCameraNode p driver).calls) ∧
    Call.start_streaming ∉ (UvcCameraNode.UvcCameraNode p driver).calls ∧
    (∀ (f : StreamFormat) (w h r : Int),
      Call.start_streaming_with_format f w h r
        ∉ (UvcCameraNode.UvcCameraNode p driver).calls) ∧
    (∀ topic : String,
      Call.create_publisher topic ∉ (UvcCameraNode.UvcCameraNode p driver).calls) := by
  have he := (requested_fmt_error_iff p.frame_fmt
    (Exception.InvalidParameterValueException invalid_frame_fmt)).2 ⟨rfl, h⟩
  obtain ⟨hcalls, hres⟩ := constructor_invalid p driver _ he
  rw [hcalls, hres]
  simp [declarations]

/-- C8 at frame_fmt "bogus", on a driver that would open the camera. -/
theorem C8_invalid_frame_fmt_fails_first_witness :
    (({ frame_fmt := "bogus" } : Parameters).frame_fmt ≠ "" ∧
      ({ frame_fmt := "bogus" } : Parameters).frame_fmt ≠ "ANY" ∧
      ({ frame_fmt := "bogus" } : Parameters).frame_fmt ≠ "UNCOMPRESSED" ∧
      ({ frame_fmt := "bogus" } : Parameters).frame_fmt ≠ "MJPEG") ∧
    (UvcCameraNode.UvcCameraNode { frame_fmt := "bogus" }
        { opens := fun _ _ _ => true, format_is_supported := fun _ _ _ _ => true }).result
      = .error (Exception.InvalidParameterValueException invalid_frame_fmt) ∧
    (UvcCameraNode.UvcCameraNode { frame_fmt := "bogus" }
        { opens := fun _ _ _ => true, format_is_supported := fun _ _ _ _ => true }).calls
      = declarations :=
  have h := C8_invalid_frame_fmt_fails_first { frame_fmt := "bogus" }
    { opens := fun _ _ _ => true, format_is_supported := fun _ _ _ _ => true }
    (by decide)
  ⟨by decide, h.1, h.2.1⟩

/-- C10 (as stated, refuted): with the default parameters, on a driver whose
camera construction fails, the run does not fail on `frame_fmt` (the format
resolves to UNCOMPRESSED), yet no callback is registered and no publisher is
created: the run ends at the construction of the camera. -/
theorem C10_camera_absent :
    requested_fmt ({} : Parameters).frame_fmt = .ok StreamFormat.UNCOMPRESSED ∧
    (UvcCameraNode.UvcCameraNode {}
        { opens := fun _ _ _ => false, format_is_supported := fun _ _ _ _ => true }).result
      = .error Exception.device_open_failure ∧
    (UvcCameraNode.UvcCameraNode {}
        { opens := fun _ _ _ => false, format_is_supported := fun _ _ _ _ => true }).calls
      = declarations ++ [Call.UvcCamera "0x046d" "0x0825" ""] ∧
    Call.register_frame_callback ∉
      (UvcCameraNode.UvcCameraNode {}
        { opens := fun _ _ _ => false, format_is_supported := fun _ _ _ _ => true }).calls ∧
    Call.create_publisher "image_raw" ∉
      (UvcCameraNode.UvcCameraNode {}
        { opens := fun _ _ _ => false, format_is_supported := fun _ _ _ _ => true }).calls := by
  refine ⟨rfl, rfl, by decide, by decide, by decide⟩

/-- C10 (amended): in every run whose `frame_fmt` is accepted and whose
camera construction succeeds, the calls are, in order: the parameter
declarations, the construction of the camera, the registration of the frame
callback, the negotiation, and last the creation of the one publisher, on
topic "image_raw". No streaming start precedes the registration and no other
publisher is created. The negotiation holds `start_streaming()` on the
first-available path, `start_streaming_with_format(...)` on the supported path
and the shutdown request, with no streaming start, on the unsupported path. -/
theorem C10_call_order (p : Parameters) (driver : Driver) (fmt : StreamFormat)
    (hfmt : requested_fmt p.frame_fmt = .ok fmt)
    (hopen : driver.opens p.vendor_id p.product_id p.serial_num = true) :
    ∃ middle : List Call,
      (UvcCameraNode.UvcCameraNode p driver).calls
        = declarations ++
            [Call.UvcCamera p.vendor_id p.product_id p.serial_num,
             Call.register_frame_callback] ++
            middle ++ [Call.create_publisher "image_raw"] ∧
      (Call.start_streaming ∉ declarations ∧
        ∀ (f : StreamFormat) (w h r : Int),
          Call.start_streaming_with_format f w h r ∉ declarations) ∧
      (∀ topic : String, Call.create_publisher topic ∉ declarations ++ middle) ∧
      (Call.register_frame_callback ∉ middle ∧
        ∀ v q s : String, Call.UvcCamera v q s ∉ middle) ∧
      ((fmt = StreamFormat.ANY ∧ static_cast_int p.image_width = 0 ∧
          static_cast_int p.image_height = 0 ∧ static_cast_int p.frames_per_second = 0) →
        Call.start_streaming ∈ middle ∧ Call.shutdown ∉ middle) ∧
      (¬ (fmt = StreamFormat.ANY ∧ static_cast_int p.image_width = 0 ∧
          static_cast_int p.image_height = 0 ∧ static_cast_int p.frames_per_second = 0) →
        driver.format_is_supported fmt (static_cast_int p.image_width)
          (static_cast_int p.image_height) (static_cast_int p.frames_per_second) = true →
        Call.start_streaming_with_format fmt (static_cast_int p.image_width)
            (static_cast_int p.image_height) (static_cast_int p.frames_per_second) ∈ middle ∧
          Call.shutdown ∉ middle) ∧
      (¬ (fmt = StreamFormat.ANY ∧ static_cast_int p.image_width = 0 ∧
          static_cast_int p.image_height = 0 ∧ static_cast_int p.frames_per_second = 0) →
        driver.format_is_supported fmt (static_cast_int p.image_width)
          (static_cast_int p.image_height) (static_cast_int p.frames_per_second) = false →
        Call.shutdown ∈ middle ∧ Call.start_streaming ∉ middle ∧
          ∀ (f : StreamFormat) (w h r : Int),
            Call.start_streaming_with_format f w h r ∉ middle) ∧
      (UvcCameraNode.UvcCameraNode p driver).calls.count (Call.create_publisher "image_raw") = 1 ∧
      (UvcCameraNode.UvcCameraNode p driver).calls.getLast?
        = some (Call.create_publisher "image_raw") := by
  refine ⟨negotiate driver fmt (static_cast_int p.image_width)
    (static_cast_int p.image_height) (static_cast_int p.frames_per_second), ?_⟩
  rw [(constructor_open p driver fmt hfmt hopen).1]
  refine ⟨rfl, by simp [declarations], ?_⟩
  by_cases hc : fmt = StreamFormat.ANY ∧ static_cast_int p.image_width = 0 ∧
      static_cast_int p.image_height = 0 ∧ static_cast_int p.frames_per_second = 0
  · rw [negotiate_first_available driver fmt _ _ _ hc]
    simp [declarations, hc]
  · cases hs : driver.format_is_supported fmt (static_cast_int p.image_width)
        (static_cast_int p.image_height) (static_cast_int p.frames_per_second) with
    | true =>
      rw [negotiate_supported driver fmt _ _ _ hc hs]
      simp [declarations, hc]
    | false =>
      rw [negotiate_unsupported driver fmt _ _ _ hc hs]
      simp [declarations, hc]

/-- C10 at the default parameters, on a driver that opens the camera and
supports nothing: the calls of the run end with the fatal log, the listing of
the supported formats, the shutdown request and the creation of the
publisher. -/
theorem C10_call_order_witness :
    requested_fmt ({} : Parameters).frame_fmt = .ok StreamFormat.UNCOMPRESSED ∧
    (UvcCameraNode.UvcCameraNode {}
        { opens := fun _ _ _ => true, format_is_supported := fun _ _ _ _ => false }).calls
      = declarations ++
          [ Call.UvcCamera "0x046d" "0x0825" "",
            Call.register_frame_callback,
            Call.RCLCPP_INFO "Attempting to acquire stream with specified parameters.",
            Call.format_is_supported StreamFormat.UNCOMPRESSED 0 0 30,
            Call.RCLCPP_FATAL
              "Requested stream is not supported. See output below for formats supported by this camera.\n",
            Call.print_supported_formats,
            Call.shutdown,
            Call.create_publisher "image_raw" ] ∧
    (UvcCameraNode.UvcCameraNode {}
        { opens := fun _ _ _ => true,
          format_is_supported := fun _ _ _ _ => false }).calls.getLast?
      = some (Call.create_publisher "image_raw") :=
  have h := C10_call_order {}
    { opens := fun _ _ _ => true, format_is_supported := fun _ _ _ _ => false }
    StreamFormat.UNCOMPRESSED rfl rfl
  ⟨rfl, by decide, h.choose_spec.2.2.2.2.2.2.2.2⟩

end libuvc_cam
